import Mathlib

/-!
Verification development for the AIStudioProxy request-serialization core.

The definitions below are shallow embeddings of the Python sources under
`src/aistudioproxy/`: the browser manager's page pool (`browser/manager.py`),
the request handler (`core/handler.py`), the page controller's model-switch
and streaming protocols (`browser/page_controller.py`), the retry decorator
(`utils/retry.py`) and the keep-alive loop (`services/keep_alive.py`).
Asynchronous effects are modelled by explicit state passing, exceptions by
`Except`, and randomness (jitter draws) by explicit input sequences.
-/

namespace AIStudioProxy

/-- Python exception values relevant to the core, by class and payload.
`http` models `fastapi.HTTPException(status_code, detail)`, `valueError`
models `ValueError(msg)`, `timeoutError` models Playwright's `TimeoutError`,
`connectionError` models `ConnectionError`, and `osError` stands for any
other exception raised by a remote-control call (tagged to distinguish
instances). -/
inductive Exn
  | http (status : Nat) (detail : String)
  | valueError (msg : String)
  | timeoutError
  | connectionError (msg : String)
  | osError (tag : Nat)
  deriving DecidableEq, Repr

/-- A browser page handle.  `closed` models the result of `page.is_closed()`. -/
structure Page where
  id : Nat
  closed : Bool
  deriving DecidableEq, Repr

/-- The browser handle held in `BrowserManager.browser`.  `connected` models
`browser.is_connected()`. -/
structure Browser where
  connected : Bool
  deriving DecidableEq, Repr

/-- The `BrowserManager` state that `get_page` / `release_page` touch:
the optional browser handle and the FIFO page pool (`asyncio.Queue`, head =
oldest entry).  `nextId` supplies fresh identities for pages created by
`browser.new_page()`. -/
structure BMState where
  browser : Option Browser
  pool : List Page
  nextId : Nat
  deriving DecidableEq, Repr

/-- Errors raised by the browser manager. -/
inductive BMError
  | browserNotRunning
  deriving DecidableEq, Repr

/-- `BrowserManager.get_page` (manager.py:125-132): if the pool is empty,
check only that the browser handle is present (`if not self.browser`) and
create a fresh page on demand; otherwise dequeue and return the oldest
pooled page with no validity check. -/
def get_page (s : BMState) : Except BMError (Page × BMState) :=
  match s.pool with
  | [] =>
    match s.browser with
    | none => .error .browserNotRunning
    | some _ =>
      .ok ({ id := s.nextId, closed := false }, { s with nextId := s.nextId + 1 })
  | p :: rest => .ok (p, { s with pool := rest })

/-- `BrowserManager.release_page` (manager.py:134-137): requeue the page only
if `page.is_closed()` is false; a closed page is dropped. -/
def release_page (s : BMState) (p : Page) : BMState :=
  if p.closed then s else { s with pool := s.pool ++ [p] }

/-- `BrowserManager.is_running` (manager.py:97-104). -/
def bmIsRunning (s : BMState) : Bool :=
  match s.browser with
  | none => false
  | some b => b.connected

/-- One pool operation performed by a caller of the browser manager. -/
inductive PoolOp
  | get
  | release (p : Page)
  deriving DecidableEq, Repr

/-- Effect of one pool operation on the manager state (a failed `get_page`
leaves the state unchanged). -/
def poolStep (s : BMState) : PoolOp → BMState
  | .get =>
    match get_page s with
    | .ok (_, s') => s'
    | .error _ => s
  | .release p => release_page s p

/-- Run a sequence of pool operations. -/
def poolRun (s : BMState) (ops : List PoolOp) : BMState :=
  ops.foldl poolStep s

/-- State of a freshly started manager: the pool pre-filled with
`initial_pool_size` open pages (manager.py:55-58) and a connected browser. -/
def startedState (n : Nat) : BMState :=
  { browser := some { connected := true },
    pool := (List.range n).map (fun i => { id := i, closed := false }),
    nextId := n }

/-- Number of `release` operations in a sequence. -/
def countReleases (ops : List PoolOp) : Nat :=
  ops.countP (fun o => match o with | .release _ => true | _ => false)

/-- C1, counterexample.  With `initial_pool_size = 1`, acquire the pooled
page, acquire a second page created on demand (pool empty), then release
both: the pool now holds 2 pages, exceeding the configured size 1.  Each
released page was previously acquired exactly once, so this is a legal
acquire/release sequence. -/
theorem c1_pool_bound_counterexample :
    ¬ ((poolRun (startedState 1)
        [.get, .get,
         .release { id := 0, closed := false },
         .release { id := 1, closed := false }]).pool.length ≤ 1) := by
  decide

/-- Pool length never grows on a `get` and grows by at most one on a
`release`. -/
theorem poolStep_length_le (s : BMState) (op : PoolOp) :
    (poolStep s op).pool.length ≤ s.pool.length +
      (match op with | .release _ => 1 | _ => 0) := by
  cases op with
  | get =>
    simp only [poolStep, get_page]
    cases hp : s.pool with
    | nil =>
      cases s.browser <;> simp [hp]
    | cons p rest =>
      simp [hp]
  | release p =>
    simp only [poolStep, release_page]
    by_cases hc : p.closed <;> simp [hc]

/-- C1, amended.  The pool is an unbounded `asyncio.Queue`: no configured
maximum is enforced.  What does hold is that acquisitions never add pages
to the pool and each release adds at most one, so after any operation
sequence the available-page count is bounded by `initial_pool_size` plus
the number of release operations performed; the counterexample shows this
bound is reached above `initial_pool_size` once on-demand pages (created
while the pool was empty) are released back. -/
theorem c1_pool_growth_bound (n : Nat) (ops : List PoolOp) :
    (poolRun (startedState n) ops).pool.length ≤ n + countReleases ops := by
  suffices h : ∀ (s : BMState) (ops : List PoolOp),
      (poolRun s ops).pool.length ≤ s.pool.length + countReleases ops by
    have := h (startedState n) ops
    simpa [startedState] using this
  intro s ops
  induction ops generalizing s with
  | nil => simp [poolRun, countReleases]
  | cons op rest ih =>
    have hstep := poolStep_length_le s op
    have hrest := ih (poolStep s op)
    have : poolRun s (op :: rest) = poolRun (poolStep s op) rest := by
      simp [poolRun]
    rw [this]
    cases op with
    | get =>
      simp only [countReleases, List.countP_cons] at *
      simp at hstep ⊢
      omega
    | release p =>
      simp only [countReleases, List.countP_cons] at *
      simp at hstep ⊢
      omega

/-- C9.  `get_page` performs no validity check on pooled pages: whenever the
pool is non-empty it dequeues and returns the oldest page unconditionally
(even a closed one, even with no browser handle at all); the
browser-not-running check happens only in the empty-pool branch and tests
only handle absence, so a present-but-disconnected browser still gets a
fresh page; and closed-page filtering happens only in `release_page`, which
drops a closed page. -/
theorem c9_get_page_unconditional :
    (∀ (s : BMState) (p : Page) (rest : List Page), s.pool = p :: rest →
      get_page s = .ok (p, { s with pool := rest })) ∧
    (∀ s : BMState, s.pool = [] → s.browser = none →
      get_page s = .error .browserNotRunning) ∧
    (∀ (s : BMState) (b : Browser), s.pool = [] → s.browser = some b →
      get_page s = .ok ({ id := s.nextId, closed := false },
        { s with nextId := s.nextId + 1 })) ∧
    (∀ (s : BMState) (p : Page), p.closed = true → release_page s p = s) := by
  refine ⟨?_, ?_, ?_, ?_⟩
  · intro s p rest hp
    simp [get_page, hp]
  · intro s hp hb
    simp [get_page, hp, hb]
  · intro s b hp hb
    simp [get_page, hp, hb]
  · intro s p hc
    simp [release_page, hc]

/-- C9, witness: a closed page sitting at the head of the pool is handed out
even though the browser handle is absent; with an empty pool a disconnected
(but present) browser handle still yields a fresh page; and releasing a
closed page drops it. -/
theorem c9_witness :
    get_page { browser := none, pool := [{ id := 0, closed := true }], nextId := 3 } =
      .ok ({ id := 0, closed := true },
           { browser := none, pool := [], nextId := 3 }) ∧
    get_page { browser := some { connected := false }, pool := [], nextId := 5 } =
      .ok ({ id := 5, closed := false },
           { browser := some { connected := false }, pool := [], nextId := 6 }) ∧
    release_page { browser := none, pool := [], nextId := 0 } { id := 7, closed := true } =
      { browser := none, pool := [], nextId := 0 } :=
  ⟨c9_get_page_unconditional.1 _ { id := 0, closed := true } [] rfl,
   c9_get_page_unconditional.2.2.1 _ { connected := false } rfl rfl,
   c9_get_page_unconditional.2.2.2 _ { id := 7, closed := true } rfl⟩

/-! ### BrowserManager.stop (manager.py:64-87), claim C8 -/

/-- Full manager state as `stop` sees it: presence of the Playwright
transport, the browser handle, the page pool and the main page controller. -/
structure BMFull where
  playwright : Bool
  browser : Option Browser
  pool : List Page
  mainController : Bool
  deriving Repr

/-- Failure environment for one `stop` run: which close/stop calls raise. -/
structure StopEnv where
  mainCloseFails : Bool
  pageCloseFails : Nat → Bool
  browserCloseFails : Bool
  playwrightStopFails : Bool

/-- Cleanup effects actually performed by a `stop` run. -/
inductive StopEvent
  | mainClosed
  | pageClosed (id : Nat)
  | browserClosed
  | playwrightStopped
  deriving DecidableEq, Repr

/-- Drain loop of `stop` (manager.py:76-78): dequeue and close each pooled
page in FIFO order; a raising `page.close()` aborts the loop with the failing
page already dequeued.  Returns the raised exception (if any), the pages
still in the queue, and the close events that happened. -/
def drainPool (env : StopEnv) : List Page → Option Exn × List Page × List StopEvent
  | [] => (none, [], [])
  | p :: rest =>
    if env.pageCloseFails p.id then (some (.osError p.id), rest, [])
    else
      let (e, rem, evs) := drainPool env rest
      (e, rem, .pageClosed p.id :: evs)

/-- Steps of `stop` after the main controller was handled: close pooled
pages and the browser (guarded by `browser and browser.is_connected()`),
then stop Playwright (guarded by presence), then clear the handles.  Any
raising step propagates immediately, leaving the state as captured at that
point — there is no exception handling in `stop`. -/
def stopFromBrowser (env : StopEnv) (s : BMFull) (tr : List StopEvent) :
    Except Exn Unit × BMFull × List StopEvent :=
  let (r, s', tr') : Option Exn × BMFull × List StopEvent :=
    match s.browser with
    | some b =>
      if b.connected then
        match drainPool env s.pool with
        | (some e, rem, evs) => (some e, { s with pool := rem }, evs)
        | (none, rem, evs) =>
          if env.browserCloseFails then (some (.osError 1001), { s with pool := rem }, evs)
          else (none, { s with pool := rem }, evs ++ [.browserClosed])
      else (none, s, [])
    | none => (none, s, [])
  match r with
  | some e => (.error e, s', tr ++ tr')
  | none =>
    if s'.playwright then
      if env.playwrightStopFails then (.error (.osError 1002), s', tr ++ tr')
      else (.ok (), { s' with playwright := false, browser := none },
            tr ++ tr' ++ [.playwrightStopped])
    else (.ok (), { s' with browser := none }, tr ++ tr')

/-- `BrowserManager.stop` (manager.py:64-87): close the main page controller
if present, then proceed with pool, browser and transport teardown.  A
raising `main_page_controller.close()` propagates before the handle is
cleared. -/
def stop (env : StopEnv) (s : BMFull) : Except Exn Unit × BMFull × List StopEvent :=
  if s.mainController then
    if env.mainCloseFails then (.error (.osError 1000), s, [])
    else stopFromBrowser env { s with mainController := false } [.mainClosed]
  else stopFromBrowser env s []

/-- C8, counterexample.  Pool of two open pages, connected browser, live
transport; closing the first pooled page raises.  `stop` then propagates the
exception having performed no cleanup effect at all: the second page is
never closed, the browser is never closed, the transport is never stopped,
and the state still holds the browser and transport handles. -/
theorem c8_stop_independence_counterexample :
    stop
      { mainCloseFails := false, pageCloseFails := fun n => n == 0,
        browserCloseFails := false, playwrightStopFails := false }
      { playwright := true, browser := some { connected := true },
        pool := [{ id := 0, closed := false }, { id := 1, closed := false }],
        mainController := false } =
    (.error (.osError 0),
     { playwright := true, browser := some { connected := true },
       pool := [{ id := 1, closed := false }], mainController := false },
     []) := by
  rfl

/-- Under `drainPool`, a clean prefix is closed and the first failing page
aborts the loop. -/
theorem drainPool_split (env : StopEnv) (pre : List Page) (p : Page) (post : List Page)
    (hpre : ∀ q ∈ pre, env.pageCloseFails q.id = false)
    (hp : env.pageCloseFails p.id = true) :
    drainPool env (pre ++ p :: post) =
      (some (.osError p.id), post, pre.map (fun q => StopEvent.pageClosed q.id)) := by
  induction pre with
  | nil => simp [drainPool, hp]
  | cons q rest ih =>
    have hq : env.pageCloseFails q.id = false := hpre q (by simp)
    have hrest : ∀ r ∈ rest, env.pageCloseFails r.id = false := by
      intro r hr
      exact hpre r (by simp [hr])
    simp [drainPool, hq, ih hrest]

/-- C8, amended.  `stop` is safe to call when already stopped (all steps are
existence-guarded, so on a torn-down state it is a no-op that succeeds), but
the cleanup steps are NOT independent: `stop` has no exception handling, so
a failure closing one pooled page propagates immediately and prevents
closing the remaining pooled pages, closing the browser process, and
stopping the remote-control transport (the trace records only the main-page
close and the clean prefix of page closes, and the browser/transport handles
are left in place). -/
theorem c8_stop_teardown :
    (∀ (env : StopEnv) (pool : List Page),
      stop env { playwright := false, browser := none, pool := pool,
                 mainController := false } =
        (.ok (), { playwright := false, browser := none, pool := pool,
                   mainController := false }, [])) ∧
    (∀ (env : StopEnv) (s : BMFull) (pre : List Page) (p : Page) (post : List Page),
      env.mainCloseFails = false →
      s.browser = some { connected := true } →
      s.pool = pre ++ p :: post →
      (∀ q ∈ pre, env.pageCloseFails q.id = false) →
      env.pageCloseFails p.id = true →
      stop env s =
        (.error (.osError p.id),
         { s with mainController := false, pool := post },
         (if s.mainController then [.mainClosed] else []) ++
           pre.map (fun q => StopEvent.pageClosed q.id))) := by
  constructor
  · intro env pool
    simp [stop, stopFromBrowser]
  · intro env s pre p post hmain hb hpool hpre hp
    have hdrain := drainPool_split env pre p post hpre hp
    by_cases hmc : s.mainController
    · simp [stop, hmc, hmain, stopFromBrowser, hb, hpool, hdrain]
    · simp [stop, hmc, stopFromBrowser, hb, hpool, hdrain]

/-- C8, witness.  Applying the amended theorem: a torn-down manager accepts
`stop` as a no-op, and with a main controller present, pool `[0, 1, 2]` and
page 1 failing to close, `stop` closes main and page 0 then aborts. -/
theorem c8_witness :
    stop
      { mainCloseFails := false, pageCloseFails := fun _ => false,
        browserCloseFails := false, playwrightStopFails := false }
      { playwright := false, browser := none, pool := [], mainController := false } =
      (.ok (), { playwright := false, browser := none, pool := [],
                 mainController := false }, []) ∧
    stop
      { mainCloseFails := false, pageCloseFails := fun n => n == 1,
        browserCloseFails := false, playwrightStopFails := false }
      { playwright := true, browser := some { connected := true },
        pool := [{ id := 0, closed := false }, { id := 1, closed := false },
                 { id := 2, closed := false }],
        mainController := true } =
      (.error (.osError 1),
       { playwright := true, browser := some { connected := true },
         pool := [{ id := 2, closed := false }], mainController := false },
       [.mainClosed, .pageClosed 0]) := by
  constructor
  · exact c8_stop_teardown.1 _ []
  · exact c8_stop_teardown.2 _ _ [{ id := 0, closed := false }]
      { id := 1, closed := false } [{ id := 2, closed := false }]
      rfl rfl rfl (by intro q hq; simp at hq; simp [hq]) rfl

/-! ### RequestHandler (core/handler.py), claims C2, C3, C7 -/

/-- Lifecycle status of a tracked request (handler.py: the `status` field of
`active_requests` entries). -/
inductive Status
  | processing
  | streaming
  | completed
  | failed
  deriving DecidableEq, Repr

/-- One in-flight request record (`active_requests[request_id]`); the
claim-relevant fields are the model name and the status (timing and usage
bookkeeping carry no weight in the verified claims). -/
structure ReqRecord where
  model : String
  status : Status
  deriving DecidableEq, Repr

/-- The in-flight request table (`self.active_requests`). -/
abbrev ReqTable := List (String × ReqRecord)

/-- Insertion of a fresh record (`self.active_requests[request_id] = {...}`). -/
def insertReq (tbl : ReqTable) (reqId : String) (r : ReqRecord) : ReqTable :=
  (reqId, r) :: tbl

/-- In-place status update of the record keyed by `reqId`. -/
def setStatus (tbl : ReqTable) (reqId : String) (st : Status) : ReqTable :=
  tbl.map (fun e => if e.1 = reqId then (e.1, { e.2 with status := st }) else e)

/-- Status lookup in the table. -/
def findStatus (tbl : ReqTable) (reqId : String) : Option Status :=
  (tbl.find? (fun e => e.1 == reqId)).map (fun e => e.2.status)

/-- Outcomes of the page-controller calls a non-streaming request makes, in
protocol order.  Each field is the behaviour of one awaited call: `Except`
failure means that call raised. -/
structure ProtocolEnv where
  switchModel : Except Exn Unit
  sendMessage : Except Exn Unit
  waitForResponse : Except Exn String
  isErrorResponse : Except Exn (Option String)

/-- The protocol body of `handle_request` after the page is acquired
(handler.py:100-115): switch model, send the prompt, await the response,
then probe for an upstream error and raise HTTP 500 when one is found. -/
def runProtocol (env : ProtocolEnv) : Except Exn String := do
  let _ ← env.switchModel
  let _ ← env.sendMessage
  let raw ← env.waitForResponse
  match (← env.isErrorResponse) with
  | some msg => throw (.http 500 ("AI Studio Error: " ++ msg))
  | none => pure raw

/-- The chat-completion response shape the handler returns; `id` is stamped
with the request's own identifier (handler.py:121). -/
structure Response where
  id : String
  model : String
  content : String
  deriving DecidableEq, Repr

/-- Cleanup effects of one `handle_request` / `handle_stream_request` run:
page releases performed in the `finally` block and the fire-and-forget
cleanup-task scheduling. -/
inductive HEvent
  | released (p : Page)
  | cleanupScheduled
  deriving DecidableEq, Repr

/-- `RequestHandler.handle_request` (handler.py:53-147), functionalized.
The semaphore is held for the whole body and does not affect a single run.
Control flow: insert a `processing` record; raise HTTP 503 if the manager
is absent or not running; acquire a page (`get_page`); run the protocol;
on success set status `completed` and return the formatted response, on any
exception set status `failed` and re-raise; the `finally` block releases
the page (when one was acquired and a manager exists) and schedules the
delayed cleanup task. -/
def handle_request (env : ProtocolEnv) (bm : Option BMState) (tbl : ReqTable)
    (reqId model : String) :
    Except Exn Response × Option BMState × ReqTable × List HEvent :=
  let tbl0 := insertReq tbl reqId { model := model, status := .processing }
  let (res, bm', page) :
      Except Exn Response × Option BMState × Option Page :=
    match bm with
    | none => (.error (.http 503 "Browser is not running"), bm, none)
    | some s =>
      if bmIsRunning s then
        match get_page s with
        | .error _ => (.error (.connectionError "Browser is not running."), some s, none)
        | .ok (p, s') =>
          ((runProtocol env).map (fun raw =>
            { id := reqId, model := model, content := raw }), some s', some p)
      else (.error (.http 503 "Browser is not running"), bm, none)
  let tbl1 :=
    match res with
    | .ok _ => setStatus tbl0 reqId .completed
    | .error _ => setStatus tbl0 reqId .failed
  match page, bm' with
  | some p, some s => (res, some (release_page s p), tbl1,
      [.released p, .cleanupScheduled])
  | _, _ => (res, bm', tbl1, [.cleanupScheduled])

/-- The protocol raises `e` as the first failure in protocol order. -/
def protocolRaises (env : ProtocolEnv) (e : Exn) : Prop :=
  runProtocol env = .error e

/-- Updating the status of a freshly inserted record is visible to lookup. -/
theorem findStatus_setStatus_insert (tbl : ReqTable) (reqId : String)
    (r : ReqRecord) (st : Status) :
    findStatus (setStatus (insertReq tbl reqId r) reqId st) reqId = some st := by
  simp [findStatus, setStatus, insertReq, List.find?]

/-- C2.  For a non-streaming request on a running manager where a page is
acquired: if the Page Controller raises `e` at any protocol point (model
switch, send, response wait, or the error probe — including the HTTP 500
the handler raises when the probe reports an upstream error), then
`handle_request` propagates exactly `e`, the tracked status becomes
`failed`, and the trace shows exactly one page release plus the cleanup
scheduling; on protocol success the same single release and cleanup occur
with status `completed`. -/
theorem c2_nonstreaming_release_and_failure (env : ProtocolEnv) (s s' : BMState)
    (p : Page) (tbl : ReqTable) (reqId model : String)
    (hrun : bmIsRunning s = true)
    (hget : get_page s = .ok (p, s')) :
    (∀ e, protocolRaises env e →
      handle_request env (some s) tbl reqId model =
        (.error e, some (release_page s' p),
         setStatus (insertReq tbl reqId { model := model, status := .processing })
           reqId .failed,
         [.released p, .cleanupScheduled]) ∧
      findStatus (handle_request env (some s) tbl reqId model).2.2.1 reqId =
        some .failed) ∧
    (∀ raw, runProtocol env = .ok raw →
      handle_request env (some s) tbl reqId model =
        (.ok { id := reqId, model := model, content := raw },
         some (release_page s' p),
         setStatus (insertReq tbl reqId { model := model, status := .processing })
           reqId .completed,
         [.released p, .cleanupScheduled])) := by
  constructor
  · intro e he
    have h : handle_request env (some s) tbl reqId model =
        (.error e, some (release_page s' p),
         setStatus (insertReq tbl reqId { model := model, status := .processing })
           reqId .failed,
         [.released p, .cleanupScheduled]) := by
      unfold protocolRaises at he
      simp [handle_request, hrun, hget, he, Except.map]
    refine ⟨h, ?_⟩
    rw [h]
    exact findStatus_setStatus_insert tbl reqId _ .failed
  · intro raw hok
    simp [handle_request, hrun, hget, hok, Except.map]

/-- C2, witness.  A concrete run where `wait_for_response` raises a
Playwright timeout: the page is released once, status is `failed`, and the
timeout propagates unchanged; and a concrete successful run with the same
release/cleanup trace. -/
theorem c2_witness :
    handle_request
      { switchModel := .ok (), sendMessage := .ok (),
        waitForResponse := .error .timeoutError, isErrorResponse := .ok none }
      (some { browser := some { connected := true },
              pool := [{ id := 0, closed := false }], nextId := 1 })
      [] "req-1" "gemini-2.5-pro" =
      (.error .timeoutError,
       some { browser := some { connected := true },
              pool := [{ id := 0, closed := false }], nextId := 1 },
       [("req-1", { model := "gemini-2.5-pro", status := .failed })],
       [.released { id := 0, closed := false }, .cleanupScheduled]) ∧
    handle_request
      { switchModel := .ok (), sendMessage := .ok (),
        waitForResponse := .ok "hi", isErrorResponse := .ok none }
      (some { browser := some { connected := true },
              pool := [{ id := 0, closed := false }], nextId := 1 })
      [] "req-2" "gemini-2.5-pro" =
      (.ok { id := "req-2", model := "gemini-2.5-pro", content := "hi" },
       some { browser := some { connected := true },
              pool := [{ id := 0, closed := false }], nextId := 1 },
       [("req-2", { model := "gemini-2.5-pro", status := .completed })],
       [.released { id := 0, closed := false }, .cleanupScheduled]) := by
  constructor
  · exact ((c2_nonstreaming_release_and_failure
      { switchModel := .ok (), sendMessage := .ok (),
        waitForResponse := .error .timeoutError, isErrorResponse := .ok none }
      { browser := some { connected := true },
        pool := [{ id := 0, closed := false }], nextId := 1 }
      { browser := some { connected := true }, pool := [], nextId := 1 }
      { id := 0, closed := false } [] "req-1" "gemini-2.5-pro"
      rfl rfl).1 .timeoutError rfl).1
  · exact (c2_nonstreaming_release_and_failure
      { switchModel := .ok (), sendMessage := .ok (),
        waitForResponse := .ok "hi", isErrorResponse := .ok none }
      { browser := some { connected := true },
        pool := [{ id := 0, closed := false }], nextId := 1 }
      { browser := some { connected := true }, pool := [], nextId := 1 }
      { id := 0, closed := false } [] "req-2" "gemini-2.5-pro"
      rfl rfl).2 "hi" rfl

/-- One wire chunk yielded by `handle_stream_request`, abstracting the SSE
string templates of `response_formatter`: the initial role-announcement
chunk, one content chunk per fragment, the error-shaped chunk
`{"error": {"message": ..., "type": "api_error"}}` built in the except
block (handler.py:234-238), the finish chunk, and the terminal
`data: [DONE]` sentinel. -/
inductive Chunk
  | initialRole (model reqId : String)
  | content (text model reqId : String)
  | errorChunk (message : String)
  | finalChunk (model reqId : String)
  | done
  deriving DecidableEq, Repr

/-- Behaviour of the page-controller calls a streaming request makes.
`fragments` are the chunks the streaming generator produces before it
either completes (`streamEnd = none`) or raises (`streamEnd = some e`). -/
structure StreamEnv where
  switchModel : Except Exn Unit
  sendMessage : Except Exn Unit
  fragments : List String
  streamEnd : Option Exn
  isErrorResponse : Except Exn (Option String)

/-- The `try` body of `handle_stream_request` after the page is acquired
(handler.py:191-227): switch model and send (nothing yielded yet), yield the
initial role chunk, yield one content chunk per fragment, then (if the
fragment source raised, that exception escapes the loop) probe for an
upstream error — raising HTTP 500 when one is found — and finally yield the
finish chunk and the sentinel.  Returns the chunks yielded before control
left the body, plus the exception that escaped, if any. -/
def streamTryBody (env : StreamEnv) (model reqId : String) :
    List Chunk × Option Exn :=
  match env.switchModel with
  | .error e => ([], some e)
  | .ok _ =>
    match env.sendMessage with
    | .error e => ([], some e)
    | .ok _ =>
      let pre := Chunk.initialRole model reqId ::
        env.fragments.map (fun f => Chunk.content f model reqId)
      match env.streamEnd with
      | some e => (pre, some e)
      | none =>
        match env.isErrorResponse with
        | .error e => (pre, some e)
        | .ok (some msg) =>
          (pre, some (.http 500 ("AI Studio Error: " ++ msg)))
        | .ok none =>
          (pre ++ [Chunk.finalChunk model reqId, Chunk.done], none)

/-- Tail of chunks appended by the except block (handler.py:229-240): an
error-shaped chunk only when the exception is an `HTTPException`, then the
sentinel; the exception is not re-raised. -/
def exceptTail : Exn → List Chunk
  | .http _ detail => [Chunk.errorChunk detail, Chunk.done]
  | _ => [Chunk.done]

/-- `RequestHandler.handle_stream_request` (handler.py:149-246),
functionalized into the full list of chunks the generator yields.  Preamble
(tracking insert with status `streaming`, manager checks, page acquisition)
as in `handle_request`; the `except` block marks the request `failed`,
yields `exceptTail` in-band instead of re-raising; the `finally` block
releases the page and schedules cleanup.  The function is total: no
exception reaches the consumer of the generator. -/
def handle_stream_request (env : StreamEnv) (bm : Option BMState) (tbl : ReqTable)
    (reqId model : String) :
    List Chunk × Option BMState × ReqTable × List HEvent :=
  let tbl0 := insertReq tbl reqId { model := model, status := .streaming }
  let (chunks, err, bm', page) :
      List Chunk × Option Exn × Option BMState × Option Page :=
    match bm with
    | none => ([], some (.http 503 "Browser is not running"), bm, none)
    | some s =>
      if bmIsRunning s then
        match get_page s with
        | .error _ => ([], some (.connectionError "Browser is not running."), some s, none)
        | .ok (p, s') =>
          let (cs, e) := streamTryBody env model reqId
          (cs, e, some s', some p)
      else ([], some (.http 503 "Browser is not running"), bm, none)
  let (chunks1, tbl1) :=
    match err with
    | none => (chunks, setStatus tbl0 reqId .completed)
    | some e => (chunks ++ exceptTail e, setStatus tbl0 reqId .failed)
  match page, bm' with
  | some p, some s => (chunks1, some (release_page s p), tbl1,
      [.released p, .cleanupScheduled])
  | _, _ => (chunks1, bm', tbl1, [.cleanupScheduled])

/-- C3, counterexample.  A streaming request on a running manager whose
fragment source raises a `ValueError` (exactly what `switch_model` and
`send_message` raise, here after two fragments): the generator yields the
role chunk, both fragments and the bare `[DONE]` sentinel — no error-shaped
chunk at all, because handler.py:234 emits one only for `HTTPException`.
The claim that every exception produces an error-shaped chunk before the
sentinel is therefore false. -/
theorem c3_error_chunk_counterexample :
    (handle_stream_request
      { switchModel := .ok (), sendMessage := .ok (),
        fragments := ["a", "b"],
        streamEnd := some (.valueError "Model not found."),
        isErrorResponse := .ok none }
      (some { browser := some { connected := true },
              pool := [{ id := 0, closed := false }], nextId := 1 })
      [] "req-3" "gemini-2.5-pro").1 =
      [Chunk.initialRole "gemini-2.5-pro" "req-3",
       Chunk.content "a" "gemini-2.5-pro" "req-3",
       Chunk.content "b" "gemini-2.5-pro" "req-3",
       Chunk.done] ∧
    ∀ msg, Chunk.errorChunk msg ∉
      (handle_stream_request
        { switchModel := .ok (), sendMessage := .ok (),
          fragments := ["a", "b"],
          streamEnd := some (.valueError "Model not found."),
          isErrorResponse := .ok none }
        (some { browser := some { connected := true },
                pool := [{ id := 0, closed := false }], nextId := 1 })
        [] "req-3" "gemini-2.5-pro").1 := by
  constructor
  · rfl
  · intro msg
    simp [handle_stream_request, streamTryBody, exceptTail, bmIsRunning,
      get_page, insertReq, setStatus]

/-- C3, amended.  For a streaming request on a running manager where a page
is acquired and the streamed protocol fails with `e` after the fragments
were produced, the generator never propagates `e`: it yields the initial
role chunk, all fragments produced before the failure, then — only when `e`
is an `HTTPException` (e.g. the upstream-error HTTP 500) — exactly one
error-shaped chunk, and in every case the `[DONE]` sentinel last; for
non-HTTP exceptions (such as the `ValueError`s of `switch_model`) no
error-shaped chunk appears.  The tracked status becomes `failed` and the
page is released once with cleanup scheduled. -/
theorem c3_stream_error_chunks (env : StreamEnv) (s s' : BMState) (p : Page)
    (tbl : ReqTable) (reqId model : String) (e : Exn)
    (hrun : bmIsRunning s = true)
    (hget : get_page s = .ok (p, s'))
    (hsw : env.switchModel = .ok ())
    (hsend : env.sendMessage = .ok ())
    (hend : env.streamEnd = some e) :
    handle_stream_request env (some s) tbl reqId model =
      (Chunk.initialRole model reqId ::
         env.fragments.map (fun f => Chunk.content f model reqId) ++
         exceptTail e,
       some (release_page s' p),
       setStatus (insertReq tbl reqId { model := model, status := .streaming })
         reqId .failed,
       [.released p, .cleanupScheduled]) ∧
    (∀ st det, e = .http st det →
      exceptTail e = [Chunk.errorChunk det, Chunk.done]) ∧
    ((∀ st det, e ≠ .http st det) → exceptTail e = [Chunk.done]) ∧
    findStatus (handle_stream_request env (some s) tbl reqId model).2.2.1 reqId =
      some .failed := by
  have h : handle_stream_request env (some s) tbl reqId model =
      (Chunk.initialRole model reqId ::
         env.fragments.map (fun f => Chunk.content f model reqId) ++
         exceptTail e,
       some (release_page s' p),
       setStatus (insertReq tbl reqId { model := model, status := .streaming })
         reqId .failed,
       [.released p, .cleanupScheduled]) := by
    simp [handle_stream_request, streamTryBody, hrun, hget, hsw, hsend, hend]
  refine ⟨h, ?_, ?_, ?_⟩
  · intro st det hdet
    simp [exceptTail, hdet]
  · intro hne
    cases e with
    | http st det => exact absurd rfl (hne st det)
    | valueError m => rfl
    | timeoutError => rfl
    | connectionError m => rfl
    | osError t => rfl
  · rw [h]
    exact findStatus_setStatus_insert tbl reqId _ .failed

/-- C3, witness.  An upstream-error failure (HTTP 500) after one fragment:
the generator yields role chunk, fragment, exactly one error-shaped chunk,
then `[DONE]`, with status `failed` and one release. -/
theorem c3_witness :
    handle_stream_request
      { switchModel := .ok (), sendMessage := .ok (),
        fragments := ["hel"],
        streamEnd := some (.http 500 "AI Studio Error: quota"),
        isErrorResponse := .ok none }
      (some { browser := some { connected := true },
              pool := [{ id := 4, closed := false }], nextId := 5 })
      [] "req-4" "gemini-2.5-flash" =
      ([Chunk.initialRole "gemini-2.5-flash" "req-4",
        Chunk.content "hel" "gemini-2.5-flash" "req-4",
        Chunk.errorChunk "AI Studio Error: quota",
        Chunk.done],
       some { browser := some { connected := true },
              pool := [{ id := 4, closed := false }], nextId := 5 },
       [("req-4", { model := "gemini-2.5-flash", status := .failed })],
       [.released { id := 4, closed := false }, .cleanupScheduled]) := by
  have := (c3_stream_error_chunks
    { switchModel := .ok (), sendMessage := .ok (),
      fragments := ["hel"],
      streamEnd := some (.http 500 "AI Studio Error: quota"),
      isErrorResponse := .ok none }
    { browser := some { connected := true },
      pool := [{ id := 4, closed := false }], nextId := 5 }
    { browser := some { connected := true }, pool := [], nextId := 5 }
    { id := 4, closed := false } [] "req-4" "gemini-2.5-flash"
    (.http 500 "AI Studio Error: quota")
    rfl rfl rfl rfl rfl).1
  simpa [exceptTail, release_page, setStatus, insertReq] using this

/-- `RequestHandler.get_active_requests_count` (handler.py:275-277): the
code returns `len(self.active_requests)` — the number of ALL tracked
records, regardless of status. -/
def get_active_requests_count (tbl : ReqTable) : Nat :=
  tbl.length

/-- The `active_requests` field computed by
`RequestHandler.get_request_stats` (handler.py:285-293): its loop counts
only records whose status is `processing`. -/
def statsActiveCount (tbl : ReqTable) : Nat :=
  tbl.countP (fun e => e.2.status == .processing)

/-- C7, counterexample.  A table holding a single `failed` record: the code
returns 1 from `get_active_requests_count`, yet the number of records in
`processing` status is 0 — the method does not filter by status. -/
theorem c7_active_count_counterexample :
    ¬ (get_active_requests_count [("r1", { model := "m", status := .failed })] =
       statsActiveCount [("r1", { model := "m", status := .failed })]) := by
  decide

/-- C7, amended.  `get_active_requests_count` returns the total number of
currently tracked records regardless of status — records in `streaming`,
`completed` or `failed` status are counted too (the count splits as the
`processing` records plus all the non-`processing` ones).  The strict
status == `processing` count is instead the `active_requests` field of
`get_request_stats`. -/
theorem c7_active_count_semantics (tbl : ReqTable) :
    get_active_requests_count tbl =
      statsActiveCount tbl +
        tbl.countP (fun e => ¬ (e.2.status == .processing)) ∧
    statsActiveCount tbl = tbl.countP (fun e => e.2.status == .processing) := by
  constructor
  · simp only [get_active_requests_count, statsActiveCount]
    have := tbl.length_eq_countP_add_countP (fun e => e.2.status == .processing)
    simpa using this
  · rfl

/-! ### PageController.start_streaming_response observer JS
(page_controller.py:328-338), claim C4 -/

/-- DOM text as a sequence of characters (JS `innerText`;
`substring(n)` is `drop n`). -/
abbrev DomText := List Char

/-- The `blockObserver` callback of `observeResponseBlock`
(page_controller.py:329-336) iterated over the successive `innerText`
snapshots of the observed response block: it keeps `lastText`, and on a
snapshot different from `lastText` emits `newText.substring(lastText.length)`
and advances `lastText`; an unchanged snapshot emits nothing. -/
def emitChunks : DomText → List DomText → List DomText
  | _, [] => []
  | last, t :: ts =>
    if t ≠ last then (t.drop last.length) :: emitChunks t ts
    else emitChunks last ts

/-- Cumulative snapshots obtained by appending each delta in turn to a base
text (the monotone suffix-extension growth pattern of the claim). -/
def cumulativeTexts (base : DomText) : List DomText → List DomText
  | [] => []
  | d :: ds => (base ++ d) :: cumulativeTexts (base ++ d) ds

/-- C4.  When the observed block's text grows monotonically by suffix
extension, the observer emits precisely the appended deltas — never the
cumulative text; in particular the snapshots "Hel", "Hello", "Hello!"
produce exactly the fragments "Hel", "lo", "!". -/
theorem c4_streaming_delta_only :
    (∀ (base : DomText) (ds : List DomText), (∀ d ∈ ds, d ≠ []) →
      emitChunks base (cumulativeTexts base ds) = ds) ∧
    emitChunks "".toList
        ["Hel".toList, "Hello".toList, "Hello!".toList] =
      ["Hel".toList, "lo".toList, "!".toList] := by
  constructor
  · intro base ds
    induction ds generalizing base with
    | nil => intro _; rfl
    | cons d rest ih =>
      intro hne
      have hd : d ≠ [] := hne d (by simp)
      have hstep : base ++ d ≠ base := by
        intro hcontra
        exact hd (by simpa using hcontra)
      simp only [cumulativeTexts, emitChunks, if_pos hstep]
      rw [List.drop_left]
      rw [ih (base ++ d) (fun x hx => hne x (by simp [hx]))]
  · decide

/-- C4, witness.  The general statement applied to the "Hel"/"lo"/"!" delta
sequence: the cumulative snapshots are exactly "Hel", "Hello", "Hello!". -/
theorem c4_witness :
    emitChunks [] (cumulativeTexts [] ["Hel".toList, "lo".toList, "!".toList]) =
      ["Hel".toList, "lo".toList, "!".toList] :=
  c4_streaming_delta_only.1 [] ["Hel".toList, "lo".toList, "!".toList]
    (by decide)

/-! ### PageController.switch_model (page_controller.py:154-191) with the
async_retry decorator (utils/retry.py:36-68), claim C5 -/

/-- Targets of the two `self.click` invocations `switch_model` performs. -/
inductive ClickTarget
  | menuButton
  | modelEntry (name : String)
  deriving DecidableEq, Repr

/-- Behaviour of the controller's `click` primitive in a simulated UI:
`none` means the click succeeds, `some e` means the (internally retried)
click call raises `e`. -/
structure UIEnv where
  clickResult : ClickTarget → Option Exn

/-- One whole-unit attempt of `switch_model` (page_controller.py:166-191),
counting invocations of the controller's `click` primitive: open the model
menu (a timeout becomes `ValueError "Could not open model selection menu."`),
click the entry with exact text `modelName` (a timeout becomes
`ValueError "Model <name> not found."`), then verify via a direct
`page.wait_for_selector` (outcome `verify`; a timeout becomes
`ValueError "Failed to switch to model <name>."`). -/
def switchModelOnce (ui : UIEnv) (verify : Option Exn) (modelName : String)
    (clicks : Nat) : Except Exn Unit × Nat :=
  let clicks := clicks + 1
  match ui.clickResult .menuButton with
  | some .timeoutError =>
    (.error (.valueError "Could not open model selection menu."), clicks)
  | some e => (.error e, clicks)
  | none =>
    let clicks := clicks + 1
    match ui.clickResult (.modelEntry modelName) with
    | some .timeoutError =>
      (.error (.valueError ("Model " ++ modelName ++ " not found.")), clicks)
    | some e => (.error e, clicks)
    | none =>
      match verify with
      | some .timeoutError =>
        (.error (.valueError ("Failed to switch to model " ++ modelName ++ ".")),
         clicks)
      | some e => (.error e, clicks)
      | none => (.ok (), clicks)

/-- The `async_retry` wrapper loop (retry.py:38-66) threading a state
through the wrapped body: attempt the body up to `attempts` times, retrying
on any exception; when the final attempt fails, re-raise its exception
unchanged.  The backoff sleeps do not touch the threaded state.  With zero
attempts the Python loop body never runs and the wrapper returns `None`,
modelled as `none`. -/
def async_retry_run {σ α : Type} (body : σ → Except Exn α × σ) :
    Nat → σ → Option (Except Exn α) × σ
  | 0, s => (none, s)
  | 1, s =>
    match body s with
    | (r, s') => (some r, s')
  | n + 2, s =>
    match body s with
    | (.ok a, s') => (some (.ok a), s')
    | (.error _, s') => async_retry_run body (n + 1) s'

/-- Simulated UI of the claim: the menu-open click always succeeds and no
menu entry matches any requested model, so the selection click always times
out (after its own internal retries). -/
def uiNoMatch : UIEnv :=
  { clickResult := fun t =>
      match t with
      | .menuButton => none
      | .modelEntry _ => some .timeoutError }

/-- C5.  `switch_model` is decorated with `async_retry(attempts=3)`; against
a UI where the menu opens but no entry matches the requested model, every
whole-unit attempt performs the menu-open click and the failing selection
click (2 invocations of the controller's click primitive), and after exactly
3 attempts the run fails with the `ValueError "Model <name> not found."`
ModelNotFound condition — 6 click invocations in total, and the verification
wait is never reached. -/
theorem c5_switch_model_retry_exhaustion (name : String) (verify : Option Exn) :
    async_retry_run (switchModelOnce uiNoMatch verify name) 3 0 =
      (some (.error (.valueError ("Model " ++ name ++ " not found."))), 6) := by
  rfl

/-! ### async_retry backoff delays (utils/retry.py:38-66), claim C6 -/

/-- The `async_retry` wrapper loop with the slept delays made observable.
`outcomes` gives the result of the wrapped call on each attempt (the list
length is the attempt count), `draws` the successive values of
`random.uniform(-jitter, jitter)` — one consumed per sleep.  Per the code:
`delay` starts at `initial_delay`; a failing non-final attempt sleeps
`delay + u * delay` and then updates `delay := min(delay * factor,
max_delay)`; the final attempt's exception is re-raised unchanged; a
success returns immediately.  Returns the final result (`none` when the
loop body never ran, i.e. zero attempts) and the list of slept delays. -/
def async_retry_sleeps {α : Type} :
    List (Except Exn α) → List ℚ → ℚ → ℚ → ℚ → Option (Except Exn α) × List ℚ
  | [], _, _, _, _ => (none, [])
  | .ok a :: _, _, _, _, _ => (some (.ok a), [])
  | .error e :: [], _, _, _, _ => (some (.error e), [])
  | .error _ :: r :: rest, draws, delay, maxDelay, factor =>
    let y :=
      async_retry_sleeps (r :: rest) draws.tail
        (min (delay * factor) maxDelay) maxDelay factor
    (y.1, (delay + draws.headD 0 * delay) :: y.2)

/-- The un-jittered base delay before the sleep following failed attempt
`k + 1` (0-indexed `k`): `initial_delay` for the first sleep, then capped
exponential growth `min(previous * factor, max_delay)`. -/
def backoffBase (maxDelay factor : ℚ) : ℚ → Nat → ℚ
  | d, 0 => d
  | d, k + 1 => backoffBase maxDelay factor (min (d * factor) maxDelay) k

/-- C6, counterexample.  With `initial_delay = 8`, `factor = 2`,
`max_delay = 10`, `jitter = 1/10`, three failing attempts and jitter draws
`[1/10, 1/10]` (both within `±jitter`): the second sleep is
`min(8·2, 10)·(1 + 1/10) = 11`, which exceeds the configured `max_delay`
`10` (the cap applies only to the next base delay, not to the slept
jittered value) and is not within `±jitter` relatively of the claimed
un-capped base `d·f^(2-1) = 16` (the admissible band is `[14.4, 17.6]`).
Both parts of the claimed bound are false at this input. -/
theorem c6_backoff_counterexample :
    async_retry_sleeps (α := Unit)
      [.error .timeoutError, .error .timeoutError, .error .timeoutError]
      [1/10, 1/10] 8 10 2 =
      (some (.error .timeoutError), [44/5, 11]) ∧
    ¬ ((11 : ℚ) ≤ 10) ∧
    ¬ (|(11 : ℚ) - 8 * 2 ^ (2 - 1)| ≤ (1/10) * (8 * 2 ^ (2 - 1))) := by
  refine ⟨?_, by norm_num, ?_⟩
  · simp only [async_retry_sleeps]
    norm_num
  · have h : |(11 : ℚ) - 8 * 2 ^ (2 - 1)| = 5 := by
      rw [show (8 : ℚ) * 2 ^ (2 - 1) = 16 by norm_num]
      rw [show (11 : ℚ) - 16 = -5 by norm_num]
      simp [abs_of_neg]
    rw [h]
    norm_num

/-- `getD` of the tail shifts the index. -/
theorem getD_tail (l : List ℚ) (i : Nat) :
    l.tail.getD i 0 = l.getD (i + 1) 0 := by
  cases l <;> rfl

/-- Every slept delay is exactly `b + u * b` for its capped base `b` and
its jitter draw `u` (0 once draws run out). -/
theorem async_retry_sleeps_getD {α : Type} (outcomes : List (Except Exn α)) :
    ∀ (draws : List ℚ) (d m f : ℚ) (i : Nat),
      i < (async_retry_sleeps outcomes draws d m f).2.length →
      (async_retry_sleeps outcomes draws d m f).2.getD i 0 =
        backoffBase m f d i + draws.getD i 0 * backoffBase m f d i := by
  induction outcomes with
  | nil =>
    intro draws d m f i hi
    simp [async_retry_sleeps] at hi
  | cons r rest ih =>
    intro draws d m f i hi
    match r, rest with
    | .ok a, _ =>
      simp [async_retry_sleeps] at hi
    | .error e, [] =>
      simp [async_retry_sleeps] at hi
    | .error e, r' :: rest' =>
      simp only [async_retry_sleeps] at hi ⊢
      cases i with
      | zero =>
        cases draws <;> simp [backoffBase, List.headD, List.getD]
      | succ k =>
        simp only [List.getD_cons_succ, List.length_cons] at hi ⊢
        rw [ih draws.tail (min (d * f) m) m f k (by omega)]
        rw [getD_tail, backoffBase]

/-- The capped base is nonnegative for nonnegative parameters. -/
theorem backoffBase_nonneg (m f : ℚ) (hm : 0 ≤ m) (hf : 0 ≤ f) :
    ∀ (k : Nat) (d : ℚ), 0 ≤ d → 0 ≤ backoffBase m f d k := by
  intro k
  induction k with
  | zero => intro d hd; simpa [backoffBase] using hd
  | succ k ih =>
    intro d hd
    rw [backoffBase]
    exact ih _ (le_min (mul_nonneg hd hf) hm)

/-- The capped base never exceeds `max initial_delay max_delay`. -/
theorem backoffBase_le_max (m f : ℚ) :
    ∀ (k : Nat) (d : ℚ), backoffBase m f d k ≤ max d m := by
  intro k
  induction k with
  | zero => intro d; simp [backoffBase]
  | succ k ih =>
    intro d
    rw [backoffBase]
    calc backoffBase m f (min (d * f) m) k ≤ max (min (d * f) m) m := ih _
    _ ≤ max d m := by
        rw [max_eq_right (min_le_right _ _)]
        exact le_max_right d m

/-- Draw values at any index stay within the jitter bound. -/
theorem getD_abs_le (draws : List ℚ) (j : ℚ) (hj : 0 ≤ j)
    (h : ∀ u ∈ draws, |u| ≤ j) (i : Nat) : |draws.getD i 0| ≤ j := by
  rw [List.getD_eq_getElem?_getD]
  cases hg : draws[i]? with
  | none => simpa [hg] using hj
  | some u =>
    have hm : u ∈ draws := List.getElem?_mem hg
    simpa [hg] using h u hm

/-- On exhaustion of all attempts (every attempt fails), the wrapper's
result is the final attempt's exception, unchanged. -/
theorem async_retry_sleeps_exhaust {α : Type} :
    ∀ (outcomes : List (Except Exn α)) (draws : List ℚ) (d m f : ℚ) (e : Exn),
      (∀ r ∈ outcomes, ∀ a, r ≠ .ok a) →
      outcomes.getLast? = some (.error e) →
      (async_retry_sleeps outcomes draws d m f).1 = some (.error e)
  | [], _, _, _, _, e, _, hlast => by simp at hlast
  | .ok a :: rest, _, _, _, _, e, hall, _ =>
    absurd rfl (hall (.ok a) (by simp) a)
  | .error e' :: [], draws, d, m, f, e, _, hlast => by
    simp at hlast
    simp [async_retry_sleeps, hlast]
  | .error e' :: r' :: rest', draws, d, m, f, e, hall, hlast => by
    simp only [async_retry_sleeps]
    have hall' : ∀ x ∈ r' :: rest', ∀ a, x ≠ .ok a := by
      intro x hx a
      exact hall x (by simp [hx]) a
    have hlast' : (r' :: rest').getLast? = some (.error e) := by
      simpa [List.getLast?_cons_cons] using hlast
    exact async_retry_sleeps_exhaust (r' :: rest') draws.tail
      (min (d * f) m) m f e hall' hlast'

/-- C6, amended.  The slept delay after failed attempt `k + 1` is
`b_k (1 + u_k)` for the capped base `b_0 = initial_delay`,
`b_{k+1} = min(b_k · factor, max_delay)` and the jitter draw `u_k`: it lies
within `± jitter` of the capped base `b_k` (relative to `b_k`, not of the
un-capped `d·f^k`), and is bounded by `(1 + jitter) · max(initial_delay,
max_delay)` (it may exceed `max_delay` itself by the jitter fraction); on
exhaustion of all attempts the final attempt's exception is returned
unchanged, with no wrapping. -/
theorem c6_backoff_bounds {α : Type} (outcomes : List (Except Exn α))
    (draws : List ℚ) (d m f j : ℚ)
    (hd : 0 ≤ d) (hm : 0 ≤ m) (hf : 0 ≤ f) (hj : 0 ≤ j)
    (hdraws : ∀ u ∈ draws, |u| ≤ j) :
    (∀ i, i < (async_retry_sleeps outcomes draws d m f).2.length →
      |(async_retry_sleeps outcomes draws d m f).2.getD i 0 -
          backoffBase m f d i| ≤ j * backoffBase m f d i ∧
      (async_retry_sleeps outcomes draws d m f).2.getD i 0 ≤
        (1 + j) * max d m) ∧
    (∀ e, (∀ r ∈ outcomes, ∀ a, r ≠ .ok a) →
      outcomes.getLast? = some (.error e) →
      (async_retry_sleeps outcomes draws d m f).1 = some (.error e)) := by
  constructor
  · intro i hi
    have hget := async_retry_sleeps_getD outcomes draws d m f i hi
    set b := backoffBase m f d i with hb
    have hbnn : 0 ≤ b := backoffBase_nonneg m f hm hf i d hd
    have hu : |draws.getD i 0| ≤ j := getD_abs_le draws j hj hdraws i
    constructor
    · rw [hget]
      have : backoffBase m f d i + draws.getD i 0 * backoffBase m f d i - b =
          draws.getD i 0 * b := by
        rw [← hb]; ring
      rw [this, abs_mul, abs_of_nonneg hbnn]
      exact mul_le_mul_of_nonneg_right hu hbnn
    · rw [hget]
      have h1 : draws.getD i 0 * backoffBase m f d i ≤ j * b := by
        calc draws.getD i 0 * backoffBase m f d i
            ≤ |draws.getD i 0 * backoffBase m f d i| := le_abs_self _
          _ = |draws.getD i 0| * b := by rw [abs_mul, abs_of_nonneg hbnn, hb]
          _ ≤ j * b := mul_le_mul_of_nonneg_right hu hbnn
      have h2 : b ≤ max d m := backoffBase_le_max m f i d
      have h3 : (1 + j) * b ≤ (1 + j) * max d m :=
        mul_le_mul_of_nonneg_left h2 (by linarith)
      calc backoffBase m f d i + draws.getD i 0 * backoffBase m f d i
          ≤ b + j * b := by rw [← hb]; linarith
        _ = (1 + j) * b := by ring
        _ ≤ (1 + j) * max d m := h3
  · intro e hall hlast
    exact async_retry_sleeps_exhaust outcomes draws d m f e hall hlast

/-- C6, witness.  Two attempts with the first failing: the single slept
delay `1 + (1/20)·1 = 21/20` is within `±1/10` of the base `1` and below
`(1 + 1/10)·max 1 10`, and the second (final) attempt's `ValueError` is
returned unchanged. -/
theorem c6_witness :
    (async_retry_sleeps (α := Unit)
        [.error .timeoutError, .error (.valueError "boom")] [1/20] 1 10 2).1 =
      some (.error (.valueError "boom")) ∧
    |(async_retry_sleeps (α := Unit)
        [.error .timeoutError, .error (.valueError "boom")] [1/20] 1 10 2).2.getD 0 0 -
        backoffBase 10 2 1 0| ≤ (1/10) * backoffBase 10 2 1 0 ∧
    (async_retry_sleeps (α := Unit)
        [.error .timeoutError, .error (.valueError "boom")] [1/20] 1 10 2).2.getD 0 0 ≤
      (1 + 1/10) * max 1 10 := by
  have h := c6_backoff_bounds (α := Unit)
    [.error .timeoutError, .error (.valueError "boom")] [1/20] 1 10 2 (1/10)
    (by norm_num) (by norm_num) (by norm_num) (by norm_num)
    (by
      intro u hu
      simp at hu
      rw [hu]
      rw [abs_of_nonneg] <;> norm_num)
  have hlen : 0 < (async_retry_sleeps (α := Unit)
      [.error .timeoutError, .error (.valueError "boom")] [1/20] 1 10 2).2.length := by
    simp [async_retry_sleeps]
  refine ⟨?_, (h.1 0 hlen).1, (h.1 0 hlen).2⟩
  exact h.2 (.valueError "boom")
    (by
      intro r hr a
      simp at hr
      rcases hr with h1 | h1 <;> simp [h1]) rfl

/-! ### KeepAliveService loop (services/keep_alive.py:66-103), claim C10 -/

/-- Outcome of one iteration of the keep-alive loop `_run`:
the session check finds the session alive; finds it dead and the re-login
succeeds; finds it dead and the re-login raises (caught by the inner
`try`); the iteration raises an unexpected exception (caught by the outer
`except Exception`); or cancellation arrives (during the top-of-loop
sleep), breaking the loop. -/
inductive KAOutcome
  | healthy
  | unhealthyReloginOk
  | unhealthyReloginFails
  | crash
  | cancelled
  deriving DecidableEq, Repr

/-- Observable events of the loop: an interval sleep
(`asyncio.sleep(self.check_interval)`), a completed session check, a check
that raised an unexpected exception, and a re-login attempt. -/
inductive KAEvent
  | sleep
  | check
  | checkRaised
  | reloginAttempt
  deriving DecidableEq, Repr

/-- Events of one loop iteration, translated from `_run`
(keep_alive.py:73-103): the interval sleep comes FIRST (line 75), then the
session check; an unhealthy session triggers a re-login attempt whose own
failure is swallowed; an unexpected exception is logged and followed by a
second interval sleep on the error path (line 103); cancellation interrupts
the top-of-loop sleep and produces no completed event. -/
def kaIter : KAOutcome → List KAEvent
  | .healthy => [.sleep, .check]
  | .unhealthyReloginOk => [.sleep, .check, .reloginAttempt]
  | .unhealthyReloginFails => [.sleep, .check, .reloginAttempt]
  | .crash => [.sleep, .checkRaised, .sleep]
  | .cancelled => []

/-- The infinite `while True` loop run over a finite outcome schedule; a
`cancelled` outcome breaks the loop. -/
def kaRun : List KAOutcome → List KAEvent
  | [] => []
  | o :: os =>
    if o = .cancelled then [] else kaIter o ++ kaRun os

/-- The check-type event an iteration performs right after its top-of-loop
sleep. -/
def kaCheckEvent : KAOutcome → KAEvent
  | .crash => .checkRaised
  | _ => .check

/-- Events an iteration performs after its check-type event. -/
def kaRest : KAOutcome → List KAEvent
  | .healthy => []
  | .unhealthyReloginOk => [.reloginAttempt]
  | .unhealthyReloginFails => [.reloginAttempt]
  | .crash => [.sleep]
  | .cancelled => []

/-- Non-cancelled iterations decompose as sleep, then check event, then
the rest. -/
theorem kaIter_decomp (o : KAOutcome) (h : o ≠ .cancelled) :
    kaIter o = .sleep :: kaCheckEvent o :: kaRest o := by
  cases o <;> simp_all [kaIter, kaCheckEvent, kaRest]

/-- Runs split across cancellation-free prefixes. -/
theorem kaRun_append (os₁ os₂ : List KAOutcome) (h : .cancelled ∉ os₁) :
    kaRun (os₁ ++ os₂) = kaRun os₁ ++ kaRun os₂ := by
  induction os₁ with
  | nil => simp [kaRun]
  | cons o os ih =>
    have ho : o ≠ .cancelled := by
      intro hc
      exact h (by simp [hc])
    have hos : KAOutcome.cancelled ∉ os := by
      intro hc
      exact h (by simp [hc])
    simp [kaRun, ho, ih hos]

/-- C10.  The keep-alive loop sleeps before it checks: the first event of
any run is an interval sleep (never a check), so the first session check
happens only one full `check_interval` after `start()`; and an iteration
whose check raises an unexpected exception contributes
`[sleep, checkRaised, sleep]`, so before the next iteration's check event
exactly two consecutive interval sleeps occur (the error-path sleep plus
the next top-of-loop sleep). -/
theorem c10_keepalive_sleep_first :
    (∀ os : List KAOutcome, (kaRun os).head? = none ∨
      (kaRun os).head? = some .sleep) ∧
    (∀ (os₁ : List KAOutcome) (o : KAOutcome) (os₂ : List KAOutcome),
      .cancelled ∉ os₁ → o ≠ .cancelled →
      kaRun (os₁ ++ .crash :: o :: os₂) =
        kaRun os₁ ++ .sleep :: .checkRaised :: .sleep :: .sleep ::
          kaCheckEvent o :: (kaRest o ++ kaRun os₂)) := by
  constructor
  · intro os
    match os with
    | [] => left; rfl
    | o :: rest =>
      by_cases ho : o = .cancelled
      · left
        simp [kaRun, ho]
      · right
        rw [kaRun, if_neg ho, kaIter_decomp o ho]
        rfl
  · intro os₁ o os₂ h₁ ho
    rw [kaRun_append os₁ (.crash :: o :: os₂) h₁]
    have hcrash : (KAOutcome.crash : KAOutcome) ≠ .cancelled := by simp
    rw [kaRun, if_neg hcrash, kaRun, if_neg ho, kaIter_decomp o ho]
    simp [kaIter, kaCheckEvent, kaRest]

/-- C10, witness.  A healthy iteration, then a crashing one, then an
unhealthy one with failing re-login: the trace shows the run starting with
a sleep and exactly two sleeps between the raised check and the next
check. -/
theorem c10_witness :
    (kaRun [.healthy, .crash, .unhealthyReloginFails]).head? = none ∨
      (kaRun [.healthy, .crash, .unhealthyReloginFails]).head? = some .sleep ∧
    kaRun [.healthy, .crash, .unhealthyReloginFails] =
      kaRun [.healthy] ++ .sleep :: .checkRaised :: .sleep :: .sleep ::
        kaCheckEvent .unhealthyReloginFails ::
        (kaRest .unhealthyReloginFails ++ kaRun []) := by
  right
  constructor
  · exact (c10_keepalive_sleep_first.1 [.healthy, .crash, .unhealthyReloginFails]).resolve_left
      (by simp [kaRun, kaIter])
  · exact c10_keepalive_sleep_first.2 [.healthy] .unhealthyReloginFails []
      (by simp) (by simp)

end AIStudioProxy
